import Mathlib

/-!
Shallow embedding of the retrieval and indexing subsystem of the OrgChar
repository: the document processor (src/orgchar/document_processor.py), the
vector store (src/orgchar/vector_store.py) and the RAG orchestrator
(src/orgchar/rag_system.py).

Third-party collaborators (the FAISS vector index internals, the embedding
model, the LLM) are black boxes in the source and are modelled here as explicit
function parameters returning Except values, so that the error-handling
paths of the repository code can be stated and proved. Python exceptions are
modelled as Except.error; a Python method that catches every exception and
returns a value is modelled as a total Lean function.
-/

namespace OrgChar

/-- A raw loaded document, as built by DocumentProcessor.load_documents_from_directory:
page_content plus the metadata record with keys source, filename and type
(the field named type in the Python dict is called dtype here because type is
a Lean keyword). -/
structure Document where
  page_content : String
  source : String
  filename : String
  dtype : String
deriving DecidableEq, Repr

/-- A chunked document, as built by DocumentProcessor.chunk_documents: the chunk
text plus the copied document metadata extended with chunk_id and total_chunks. -/
structure Chunk where
  page_content : String
  source : String
  filename : String
  dtype : String
  chunk_id : Nat
  total_chunks : Nat
deriving DecidableEq, Repr

/-- The in-memory FAISS store held in VectorStore.vector_store. Its only part
the repository code inspects directly is the docstore dictionary, whose length
is used for document_count; the vector data itself is abstracted away. -/
structure FaissStore where
  docs : List Chunk
deriving DecidableEq, Repr

/-- The VectorStore object state: the embedding model name fixed at
construction, and the optional in-memory FAISS store (None until an index is
created or loaded). -/
structure VectorStore where
  embedding_model : String
  vector_store : Option FaissStore
deriving DecidableEq, Repr

/-- True exactly when an Except value is an error (a raised Python exception). -/
def isErr {ε α : Type} : Except ε α → Bool
  | Except.error _ => true
  | Except.ok _ => false

/-- True exactly when a Python string is falsy after .strip(): every character
is whitespace (this includes the empty string). -/
def isBlank (s : String) : Bool :=
  s.data.all Char.isWhitespace

/-! ## DocumentProcessor: directory loading -/

/-- The supported_extensions set of load_documents_from_directory. -/
def supported_extensions : List String := [".pdf", ".txt", ".md"]

/-- One regular file seen by the directory scan. load_result is the outcome of
the attempt to extract its text (load_pdf or load_text_file): ok content, or
error when the loader raises. -/
structure FileEntry where
  path : String
  filename : String
  ext : String
  load_result : Except String String
deriving Repr

/-- The extracted content of a file, empty for a failed load (only consulted
when the load succeeded). -/
def contentOf (f : FileEntry) : String :=
  match f.load_result with
  | Except.ok c => c
  | Except.error _ => ""

/-- The Document record load_documents_from_directory builds for a
successfully loaded, non-empty file: metadata source, filename and
type = suffix without the dot, uppercased. -/
def mkLoadedDoc (f : FileEntry) : Document :=
  { page_content := contentOf f
    source := f.path
    filename := f.filename
    dtype := (f.ext.drop 1).toUpper }

/-- DocumentProcessor.load_documents_from_directory, over the list of regular
files found by rglob: keep files with a supported extension; a load that
raises is logged and skipped; content that is empty after strip is logged and
skipped; otherwise one Document is appended. -/
def load_documents_from_directory : List FileEntry → List Document
  | [] => []
  | f :: rest =>
    if supported_extensions.contains f.ext.toLower then
      match f.load_result with
      | Except.error _ => load_documents_from_directory rest
      | Except.ok content =>
        if isBlank content then
          load_documents_from_directory rest
        else
          mkLoadedDoc f :: load_documents_from_directory rest
    else
      load_documents_from_directory rest

/-- The predicate characterising the files that contribute a Document: a
supported extension, a load that does not raise, and content that is not
empty after strip. -/
def goodFile (f : FileEntry) : Bool :=
  supported_extensions.contains f.ext.toLower
    && !(isErr f.load_result)
    && !(isBlank (contentOf f))

/-! ## DocumentProcessor: chunking -/

/-- The chunks DocumentProcessor.chunk_documents produces from one document:
the splitter output, each piece wrapped in a Document whose metadata is the
source metadata copied and extended with chunk_id = the enumeration index and
total_chunks = the number of pieces. The text splitter itself is a third-party
collaborator and is passed as the split parameter. -/
def chunksOfDoc (split : String → List String) (d : Document) : List Chunk :=
  (split d.page_content).enum.map fun ic =>
    { page_content := ic.2
      source := d.source
      filename := d.filename
      dtype := d.dtype
      chunk_id := ic.1
      total_chunks := (split d.page_content).length }

/-- DocumentProcessor.chunk_documents: the loop over documents, appending the
chunks of each document to the accumulated list in order. -/
def chunk_documents (split : String → List String) : List Document → List Chunk
  | [] => []
  | d :: rest => chunksOfDoc split d ++ chunk_documents split rest

/-- Greedy fixed-size segmentation of a character list: emit the first csize
characters, restart step characters further on, stop when the remainder fits
in one segment. The fuel argument bounds the recursion; it is called with
fuel = the length of the list, which always suffices because each recursive
call drops at least one character. -/
def splitCharsAux (csize step : Nat) : Nat → List Char → List (List Char)
  | 0, cs => [cs]
  | fuel + 1, cs =>
    if cs.length ≤ csize then [cs]
    else cs.take csize :: splitCharsAux csize step fuel (cs.drop (max step 1))

/-- Modelled from the spec: the Chunker splitting policy of the spec, hard-cut
fallback path. The repository delegates splitting to a third-party text
splitter (RecursiveCharacterTextSplitter) that is not part of the source tree,
so the splitting policy is taken from the spec: greedily pack text into
segments of at most chunk_size characters, each subsequent segment beginning
chunk_overlap characters before the end of the previous nominal boundary, and
empty or whitespace-only text produces zero chunks. -/
def split_text (chunk_size chunk_overlap : Nat) (text : String) : List String :=
  if isBlank text then []
  else
    (splitCharsAux chunk_size (chunk_size - chunk_overlap) text.data.length text.data).map
      fun cs => String.mk cs

/-- DocumentProcessor.process_directory: load the directory, return the empty
list when no documents were found, otherwise chunk them. -/
def process_directory (split : String → List String) (files : List FileEntry) : List Chunk :=
  let documents := load_documents_from_directory files
  if documents.isEmpty then []
  else chunk_documents split documents

/-! ## VectorStore operations -/

/-- VectorStore.create_index. The FAISS.from_documents call (embedding plus
index construction) is the build parameter; when it raises, create_index logs
and re-raises, and the assignment to self.vector_store never happens, so an
error result leaves the object state exactly as it was. An empty document
list is a logged no-op. -/
def create_index (build : List Chunk → Except String FaissStore)
    (vs : VectorStore) (documents : List Chunk) : Except String VectorStore :=
  if documents.isEmpty then Except.ok vs
  else
    match build documents with
    | Except.ok f => Except.ok { vs with vector_store := some f }
    | Except.error e => Except.error e

/-- VectorStore.similarity_search. The wrapped FAISS search is the inner
parameter; an uninitialized store returns the empty list at once, and an
inner exception is caught and mapped to the empty list, so the method is
total and never raises. -/
def similarity_search (inner : FaissStore → String → Nat → Except String (List Chunk))
    (vs : VectorStore) (query : String) (k : Nat) : List Chunk :=
  match vs.vector_store with
  | none => []
  | some st =>
    match inner st query k with
    | Except.ok results => results
    | Except.error _ => []

/-- One file-system operation performed by VectorStore.save_index, recorded
with enough payload to state what is written where. -/
inductive FsOp where
  | mkdirParents (path : String)
  | writeFaissIndex (path : String)
  | writeMetadataFile (path : String) (embedding_model : String) (document_count : Nat)
  | writeTempFile (path : String)
  | renameInto (src : String) (dst : String)
deriving DecidableEq, Repr

/-- The sequence of file-system operations VectorStore.save_index performs:
nothing when no store exists; otherwise mkdir the parents, write the FAISS
blob directly at file_path/faiss_index, then write the metadata record with
keys embedding_model and document_count directly at file_path/metadata.pkl. -/
def save_index_trace (vs : VectorStore) (file_path : String) : List FsOp :=
  match vs.vector_store with
  | none => []
  | some f =>
    [FsOp.mkdirParents file_path,
     FsOp.writeFaissIndex (file_path ++ "/faiss_index"),
     FsOp.writeMetadataFile (file_path ++ "/metadata.pkl") vs.embedding_model f.docs.length]

/-- Following the words of the spec for persist: the trace writes to a
temporary location and then moves the result into place. This definition is
written from the spec sentence, to be compared with the trace the source
produces. -/
def writes_temp_then_moves (ops : List FsOp) : Bool :=
  (ops.any fun op => match op with | FsOp.writeTempFile _ => true | _ => false)
    && (ops.any fun op => match op with | FsOp.renameInto _ _ => true | _ => false)

/-- True exactly when the operation writes final-destination content directly,
without going through a temporary location. -/
def isDirectWrite : FsOp → Bool
  | FsOp.writeFaissIndex _ => true
  | FsOp.writeMetadataFile _ _ _ => true
  | _ => false

/-- The metadata dictionary persisted by save_index. -/
structure Metadata where
  embedding_model : String
  document_count : Nat
deriving DecidableEq, Repr

/-- The on-disk state VectorStore.load_index consults: whether each of the two
expected files exists, the outcome of unpickling metadata.pkl, and the outcome
of FAISS.load_local on the faiss_index blob (each an error when the call
raises, e.g. the file is unreadable or fails to deserialize). -/
structure DiskState where
  faiss_exists : Bool
  metadata_exists : Bool
  metadata_load : Except String Metadata
  faiss_load : Except String FaissStore
deriving Repr

/-- VectorStore.load_index: returns false when either expected file is
missing; otherwise unpickles metadata (a raise is caught, returning false),
warns but does not fail on an embedding-model mismatch, then loads the FAISS
blob (a raise is caught, returning false). Only on full success is
self.vector_store assigned and true returned. The returned pair is
(return value, object state after the call). -/
def load_index (disk : DiskState) (vs : VectorStore) : Bool × VectorStore :=
  if !(disk.faiss_exists && disk.metadata_exists) then (false, vs)
  else
    match disk.metadata_load with
    | Except.error _ => (false, vs)
    | Except.ok _ =>
      match disk.faiss_load with
      | Except.error _ => (false, vs)
      | Except.ok f => (true, { vs with vector_store := some f })

/-- A value in the statistics dictionary returned by get_stats. -/
inductive StatVal where
  | s (v : String)
  | n (v : Nat)
deriving DecidableEq, Repr

/-- VectorStore.get_stats, as the association list of the Python dict literal
it returns: two keys when the store is uninitialized, three when it is
initialized. -/
def get_stats (vs : VectorStore) : List (String × StatVal) :=
  match vs.vector_store with
  | none =>
    [("status", StatVal.s "not_initialized"),
     ("document_count", StatVal.n 0)]
  | some f =>
    [("status", StatVal.s "initialized"),
     ("document_count", StatVal.n f.docs.length),
     ("embedding_model", StatVal.s vs.embedding_model)]

/-! ## RAGSystem orchestration -/

/-- RAGSystem.retrieve_context: delegates to VectorStore.similarity_search
inside a try/except that returns the empty list; since similarity_search is
already total, the except branch adds nothing and the method never raises. -/
def retrieve_context (inner : FaissStore → String → Nat → Except String (List Chunk))
    (vs : VectorStore) (query : String) (k : Nat) : List Chunk :=
  similarity_search inner vs query k

/-- RAGSystem._rebuild_knowledge_base: process the knowledge-base directory;
when no chunks result, log and return false with the store untouched; create
the index (a raise from the build is caught by the surrounding try, returning
false with the store untouched); then save it (saveOk = false means
save_index raised, which the surrounding try also catches, returning false,
the store by then already holding the freshly built index). -/
def rebuild_knowledge_base (split : String → List String)
    (build : List Chunk → Except String FaissStore) (saveOk : Bool)
    (vs : VectorStore) (files : List FileEntry) : Bool × VectorStore :=
  let documents := process_directory split files
  if documents.isEmpty then (false, vs)
  else
    match create_index build vs documents with
    | Except.error _ => (false, vs)
    | Except.ok vs' => if saveOk then (true, vs') else (false, vs')

/-- RAGSystem.update_knowledge_base: exactly _rebuild_knowledge_base. -/
def update_knowledge_base (split : String → List String)
    (build : List Chunk → Except String FaissStore) (saveOk : Bool)
    (vs : VectorStore) (files : List FileEntry) : Bool × VectorStore :=
  rebuild_knowledge_base split build saveOk vs files

/-- RAGSystem.load_knowledge_base: unless force_rebuild is set, first try
load_index and return true on success; otherwise fall through to
_rebuild_knowledge_base. -/
def load_knowledge_base (disk : DiskState) (split : String → List String)
    (build : List Chunk → Except String FaissStore) (saveOk : Bool)
    (vs : VectorStore) (files : List FileEntry) (force_rebuild : Bool) : Bool × VectorStore :=
  if force_rebuild then rebuild_knowledge_base split build saveOk vs files
  else
    match load_index disk vs with
    | (true, vs') => (true, vs')
    | (false, vs') => rebuild_knowledge_base split build saveOk vs' files

/-- One entry of the sources list assembled by RAGSystem.answer_question. -/
structure SourceInfo where
  filename : String
  dtype : String
  chunk_id : Nat
deriving DecidableEq, Repr

/-- The source_info record built from one retrieved chunk. -/
def sourceInfoOf (c : Chunk) : SourceInfo :=
  { filename := c.filename, dtype := c.dtype, chunk_id := c.chunk_id }

/-- One iteration of the sources loop of answer_question: append the record
unless it is already present. -/
def dedupStep (acc : List SourceInfo) (c : Chunk) : List SourceInfo :=
  if sourceInfoOf c ∈ acc then acc else acc ++ [sourceInfoOf c]

/-- The sources loop of answer_question over the retrieved context documents. -/
def dedupSources (chunks : List Chunk) : List SourceInfo :=
  chunks.foldl dedupStep []

/-- The dictionary answer_question returns; as a structure it has exactly the
keys answer, sources, context_count and question. -/
structure AnswerResult where
  answer : String
  sources : List SourceInfo
  context_count : Nat
  question : String
deriving DecidableEq, Repr

/-- RAGSystem.answer_question: retrieve context (total, never raises),
generate an answer (the LLM call is the gen parameter; a raise anywhere in
the try block is caught by the outer except, which returns the fixed
four-field error dictionary with empty sources and context_count 0),
deduplicate the source records, and assemble the result. -/
def answer_question (inner : FaissStore → String → Nat → Except String (List Chunk))
    (gen : String → List Chunk → Except String String)
    (vs : VectorStore) (question : String) (retrieve_k : Nat) : AnswerResult :=
  let context_docs := retrieve_context inner vs question retrieve_k
  match gen question context_docs with
  | Except.ok answer =>
    { answer := answer
      sources := dedupSources context_docs
      context_count := context_docs.length
      question := question }
  | Except.error e =>
    { answer := "Error processing question: " ++ e
      sources := []
      context_count := 0
      question := question }

/-! ## Concrete sample values used by witnesses -/

/-- A one-chunk sample value. -/
def sampleChunk : Chunk :=
  { page_content := "a", source := "s", filename := "f", dtype := "TXT",
    chunk_id := 0, total_chunks := 1 }

/-- A loaded store holding the sample chunk. -/
def sampleLoadedVS : VectorStore :=
  { embedding_model := "m", vector_store := some { docs := [sampleChunk] } }

/-- An initialized store with an empty docstore. -/
def sampleEmptyDocsVS : VectorStore :=
  { embedding_model := "m", vector_store := some { docs := [] } }

/-- A second sample chunk with different text but the same source record as
sampleChunk, to exercise source deduplication. -/
def sampleChunkB : Chunk :=
  { page_content := "b", source := "s", filename := "f", dtype := "TXT",
    chunk_id := 0, total_chunks := 1 }

/-- A loaded store holding two chunks that share one source record. -/
def sampleDupVS : VectorStore :=
  { embedding_model := "m", vector_store := some { docs := [sampleChunk, sampleChunkB] } }

/-! ## Helper lemmas -/

theorem chunksOfDoc_map_chunk_id (split : String → List String) (d : Document) :
    (chunksOfDoc split d).map Chunk.chunk_id = List.range (split d.page_content).length := by
  unfold chunksOfDoc
  rw [List.map_map]
  show (split d.page_content).enum.map Prod.fst = _
  exact List.enum_map_fst _

theorem mem_chunksOfDoc (split : String → List String) (d : Document) (c : Chunk)
    (hc : c ∈ chunksOfDoc split d) :
    c.total_chunks = (split d.page_content).length ∧ c.chunk_id < c.total_chunks := by
  unfold chunksOfDoc at hc
  rcases List.mem_map.mp hc with ⟨ic, hmem, rfl⟩
  refine ⟨rfl, ?_⟩
  have h1 : ic.1 ∈ (split d.page_content).enum.map Prod.fst := List.mem_map_of_mem _ hmem
  rw [List.enum_map_fst] at h1
  exact List.mem_range.mp h1

theorem chunk_documents_eq_flatMap (split : String → List String) (docs : List Document) :
    chunk_documents split docs = docs.flatMap (chunksOfDoc split) := by
  induction docs with
  | nil => rfl
  | cons d rest ih => simp [chunk_documents, ih]

theorem split_text_small (chunk_size chunk_overlap : Nat) (text : String)
    (hlen : text.length < chunk_size) (hbl : isBlank text = false) :
    split_text chunk_size chunk_overlap text = [text] := by
  unfold split_text
  rw [hbl]
  rw [if_neg (by simp)]
  cases hd : text.data with
  | nil =>
    exfalso
    unfold isBlank at hbl
    rw [hd] at hbl
    simp at hbl
  | cons a as =>
    have hlen2 : as.length + 1 ≤ chunk_size := by
      have ht : text.length = as.length + 1 := by
        show text.data.length = _
        rw [hd]
        rfl
      omega
    simp only [List.length_cons, splitCharsAux]
    rw [if_pos hlen2]
    show [String.mk (a :: as)] = [text]
    rw [← hd]

/-! ## Claims -/

/-- C1: similarity_search on an uninitialized VectorStore returns the empty
list for every query and every k at least 1, and retrieve_context in the
EMPTY orchestrator state likewise; neither raises, which the embedding
reflects by both being total functions into plain lists (every exception in
the source bodies is caught). -/
theorem C1_search_uninitialized
    (inner : FaissStore → String → Nat → Except String (List Chunk))
    (vs : VectorStore) (query : String) (k : Nat)
    (hempty : vs.vector_store = none) (_hk : 1 ≤ k) :
    similarity_search inner vs query k = [] ∧
    retrieve_context inner vs query k = [] := by
  constructor <;> simp [similarity_search, retrieve_context, hempty]

/-- C1 witness: the uninitialized store at a concrete query and k = 3. -/
theorem C1_search_uninitialized_witness :
    ({ embedding_model := "m", vector_store := none } : VectorStore).vector_store = none ∧
    1 ≤ 3 ∧
    similarity_search (fun _ _ _ => Except.ok [])
      { embedding_model := "m", vector_store := none } "leadership" 3 = [] ∧
    retrieve_context (fun _ _ _ => Except.ok [])
      { embedding_model := "m", vector_store := none } "leadership" 3 = [] :=
  ⟨rfl, by decide,
    C1_search_uninitialized (fun _ _ _ => Except.ok [])
      { embedding_model := "m", vector_store := none } "leadership" 3 rfl (by decide)⟩

/-- C5 counterexample: in the uninitialized state get_stats returns a
dictionary whose keys are exactly status and document_count, so the field
embedding_model is absent there and the claim that all three fields are
present in every state is false. -/
theorem C5_counterexample :
    (get_stats { embedding_model := "m", vector_store := none }).map Prod.fst
      = ["status", "document_count"] ∧
    ¬ "embedding_model" ∈
        (get_stats { embedding_model := "m", vector_store := none }).map Prod.fst := by
  decide

/-- C5 amended: get_stats always returns status and document_count; the
embedding_model field is present exactly when the store is initialized, and
the status value is not_initialized or initialized accordingly. -/
theorem C5_get_stats_fields (vs : VectorStore) :
    "status" ∈ (get_stats vs).map Prod.fst ∧
    "document_count" ∈ (get_stats vs).map Prod.fst ∧
    ("embedding_model" ∈ (get_stats vs).map Prod.fst ↔ vs.vector_store.isSome = true) ∧
    (vs.vector_store = none → ("status", StatVal.s "not_initialized") ∈ get_stats vs ∧
      ("document_count", StatVal.n 0) ∈ get_stats vs) ∧
    (∀ f, vs.vector_store = some f → ("status", StatVal.s "initialized") ∈ get_stats vs ∧
      ("document_count", StatVal.n f.docs.length) ∈ get_stats vs ∧
      ("embedding_model", StatVal.s vs.embedding_model) ∈ get_stats vs) := by
  cases h : vs.vector_store with
  | none =>
    refine ⟨?_, ?_, ?_, ?_, fun f hf => nomatch hf⟩ <;>
      simp only [get_stats, h] <;> decide
  | some f0 =>
    refine ⟨?_, ?_, ?_, ?_, ?_⟩
    · simp [get_stats, h]
    · simp [get_stats, h]
    · simp [get_stats, h]
    · intro hn
      exact nomatch hn
    · intro f hf
      injection hf with hff
      subst hff
      simp [get_stats, h]

/-- C5 witness: the amended statement applied to a concrete initialized
store, with the hypothesis of its initialized conjunct discharged there. -/
theorem C5_get_stats_fields_witness :
    ("status", StatVal.s "initialized")
        ∈ get_stats { embedding_model := "m", vector_store := some { docs := [] } } ∧
    ("embedding_model", StatVal.s "m")
        ∈ get_stats { embedding_model := "m", vector_store := some { docs := [] } } :=
  ⟨((C5_get_stats_fields { embedding_model := "m", vector_store := some { docs := [] } }).2.2.2.2
      { docs := [] } rfl).1,
    ((C5_get_stats_fields { embedding_model := "m", vector_store := some { docs := [] } }).2.2.2.2
      { docs := [] } rfl).2.2⟩

/-- C7: every chunk produced by chunk_documents satisfies
chunk_id < total_chunks; the output is the in-order concatenation of the
per-document chunk lists; within one document the chunk_id values are exactly
0, 1, ..., n-1 in output order and every chunk carries total_chunks = n,
where n is the number of pieces the splitter produced for that document. -/
theorem C7_chunk_index_invariants (split : String → List String) (docs : List Document) :
    (∀ c ∈ chunk_documents split docs, c.chunk_id < c.total_chunks) ∧
    chunk_documents split docs = docs.flatMap (chunksOfDoc split) ∧
    (∀ d, (chunksOfDoc split d).map Chunk.chunk_id = List.range (split d.page_content).length) ∧
    (∀ d, ∀ c ∈ chunksOfDoc split d, c.total_chunks = (split d.page_content).length) := by
  refine ⟨?_, chunk_documents_eq_flatMap split docs,
    fun d => chunksOfDoc_map_chunk_id split d,
    fun d c hc => (mem_chunksOfDoc split d c hc).1⟩
  intro c hc
  rw [chunk_documents_eq_flatMap] at hc
  rcases List.mem_flatMap.mp hc with ⟨d, _, hcd⟩
  exact (mem_chunksOfDoc split d c hcd).2

/-- C7 witness: the bound instantiated at a concrete chunk of a concrete
two-piece split, with the membership hypothesis discharged by evaluation. -/
theorem C7_chunk_index_invariants_witness :
    ({ page_content := "ghij", source := "s", filename := "f", dtype := "TXT",
       chunk_id := 2, total_chunks := 3 } : Chunk).chunk_id <
      ({ page_content := "ghij", source := "s", filename := "f", dtype := "TXT",
         chunk_id := 2, total_chunks := 3 } : Chunk).total_chunks :=
  (C7_chunk_index_invariants (split_text 5 2)
      [{ page_content := "abcdefghij", source := "s", filename := "f", dtype := "TXT" }]).1
    { page_content := "ghij", source := "s", filename := "f", dtype := "TXT",
      chunk_id := 2, total_chunks := 3 }
    (by decide)

/-- C3 counterexample: the empty document has content length 0, below any
positive chunk_size, yet chunking it yields zero chunks rather than exactly
one chunk equal to its content, because the splitting policy maps empty or
whitespace-only text to zero chunks. -/
theorem C3_counterexample :
    ("" : String).length < 1000 ∧
    (chunk_documents (split_text 1000 200)
        [{ page_content := "", source := "s", filename := "f", dtype := "TXT" }]).length = 0 ∧
    (chunk_documents (split_text 1000 200)
        [{ page_content := "", source := "s", filename := "f", dtype := "TXT" }]).map
      Chunk.page_content ≠ [""] := by
  decide

/-- C3 amended: for every document whose content is shorter than chunk_size
and is not empty or whitespace-only, chunking yields exactly one chunk whose
text equals the content character for character (empty or whitespace-only
content yields zero chunks instead). -/
theorem C3_one_chunk_small_doc (chunk_size chunk_overlap : Nat) (D : Document)
    (hlen : D.page_content.length < chunk_size)
    (hbl : isBlank D.page_content = false) :
    (chunk_documents (split_text chunk_size chunk_overlap) [D]).map Chunk.page_content
      = [D.page_content] := by
  have hs := split_text_small chunk_size chunk_overlap D.page_content hlen hbl
  simp [chunk_documents, chunksOfDoc, hs]

/-- C3 witness: a concrete two-character document under the default
configuration sizes. -/
theorem C3_one_chunk_small_doc_witness :
    ("hi" : String).length < 1000 ∧ isBlank "hi" = false ∧
    (chunk_documents (split_text 1000 200)
        [{ page_content := "hi", source := "s", filename := "f", dtype := "TXT" }]).map
      Chunk.page_content = ["hi"] :=
  ⟨by decide, by decide,
    C3_one_chunk_small_doc 1000 200
      { page_content := "hi", source := "s", filename := "f", dtype := "TXT" }
      (by decide) (by decide)⟩

/-- C2: when an in-memory index is loaded and a rebuild fails because no
documents were found or because the embedding or index construction raised,
_rebuild_knowledge_base, update_knowledge_base and load_knowledge_base with
force_rebuild all return false with the object state exactly as before, the
previously loaded index still in place and serving identical searches. -/
theorem C2_rebuild_failure_preserves_index (split : String → List String)
    (build : List Chunk → Except String FaissStore) (saveOk : Bool) (disk : DiskState)
    (vs : VectorStore) (files : List FileEntry) (f0 : FaissStore)
    (hloaded : vs.vector_store = some f0)
    (hfail : process_directory split files = [] ∨
      isErr (build (process_directory split files)) = true) :
    rebuild_knowledge_base split build saveOk vs files = (false, vs) ∧
    update_knowledge_base split build saveOk vs files = (false, vs) ∧
    load_knowledge_base disk split build saveOk vs files true = (false, vs) ∧
    (rebuild_knowledge_base split build saveOk vs files).2.vector_store = some f0 ∧
    (∀ inner q k,
      similarity_search inner (rebuild_knowledge_base split build saveOk vs files).2 q k
        = similarity_search inner vs q k) := by
  have hre : rebuild_knowledge_base split build saveOk vs files = (false, vs) := by
    unfold rebuild_knowledge_base
    rcases hfail with h | h
    · rw [h]
      rfl
    · by_cases hemp : (process_directory split files).isEmpty
      · simp [hemp]
      · cases hb : build (process_directory split files) with
        | error e => simp [hemp, create_index, hb]
        | ok f =>
          rw [hb] at h
          exact absurd h (by simp [isErr])
  refine ⟨hre, hre, ?_, ?_, ?_⟩
  · show rebuild_knowledge_base split build saveOk vs files = (false, vs)
    exact hre
  · rw [hre]
    exact hloaded
  · intro inner q k
    rw [hre]

/-- C2 witness: a loaded one-chunk index, an empty knowledge-base directory
and a failing build function. -/
theorem C2_rebuild_failure_preserves_index_witness :
    rebuild_knowledge_base (fun s => [s]) (fun _ => Except.error "boom") true
        sampleLoadedVS [] = (false, sampleLoadedVS) :=
  (C2_rebuild_failure_preserves_index (fun s => [s]) (fun _ => Except.error "boom") true
      ⟨false, false, Except.error "e", Except.error "e"⟩
      sampleLoadedVS [] { docs := [sampleChunk] } rfl (Or.inl rfl)).1

/-- C4 counterexample: on a concrete initialized store, the file-system trace
of save_index contains direct writes of the final files and no
temporary-location write and no move, so the trace does not satisfy the
spec-worded write-to-temp-then-move predicate. -/
theorem C4_counterexample :
    writes_temp_then_moves (save_index_trace sampleEmptyDocsVS "db") = false ∧
    (save_index_trace sampleEmptyDocsVS "db").any isDirectWrite = true := by
  decide

/-- C4 amended: save_index serializes the index blob and the metadata record
with fields embedding_model and document_count, but writes both directly into
the destination directory after creating it; there is no temporary-location
write and no atomic move into place. -/
theorem C4_save_index_direct (vs : VectorStore) (f : FaissStore) (path : String)
    (h : vs.vector_store = some f) :
    save_index_trace vs path =
      [FsOp.mkdirParents path,
       FsOp.writeFaissIndex (path ++ "/faiss_index"),
       FsOp.writeMetadataFile (path ++ "/metadata.pkl") vs.embedding_model f.docs.length] ∧
    writes_temp_then_moves (save_index_trace vs path) = false := by
  unfold save_index_trace
  rw [h]
  exact ⟨rfl, rfl⟩

/-- C4 witness: the amended statement at a concrete store and path. -/
theorem C4_save_index_direct_witness :
    save_index_trace sampleEmptyDocsVS "vector_db"
      = [FsOp.mkdirParents "vector_db",
         FsOp.writeFaissIndex ("vector_db" ++ "/faiss_index"),
         FsOp.writeMetadataFile ("vector_db" ++ "/metadata.pkl") "m" 0] :=
  (C4_save_index_direct sampleEmptyDocsVS { docs := [] } "vector_db" rfl).1

/-- C6: load_index returns false with the object state unchanged whenever the
faiss_index blob or metadata.pkl is absent, or unpickling the metadata raises,
or loading the blob raises (every such raise is caught, so the method never
raises); it returns true only when everything succeeded, and then the
in-memory state holds the loaded store. -/
theorem C6_load_index (disk : DiskState) (vs : VectorStore) :
    ((disk.faiss_exists = false ∨ disk.metadata_exists = false ∨
        isErr disk.metadata_load = true ∨ isErr disk.faiss_load = true) →
      load_index disk vs = (false, vs)) ∧
    ((load_index disk vs).1 = true →
      disk.faiss_exists = true ∧ disk.metadata_exists = true ∧
      isErr disk.metadata_load = false ∧
      ∃ f, disk.faiss_load = Except.ok f ∧
        (load_index disk vs).2 = { vs with vector_store := some f }) ∧
    ((load_index disk vs).1 = false → (load_index disk vs).2 = vs) := by
  cases hfe : disk.faiss_exists <;> cases hme : disk.metadata_exists <;>
    cases hml : disk.metadata_load <;> cases hfl : disk.faiss_load <;>
      simp_all [load_index, isErr]

/-- C6 witness: a concrete on-disk state missing the faiss_index blob. -/
theorem C6_load_index_witness :
    load_index ⟨false, true, Except.error "e", Except.error "e"⟩
        { embedding_model := "m", vector_store := none }
      = (false, { embedding_model := "m", vector_store := none }) :=
  (C6_load_index ⟨false, true, Except.error "e", Except.error "e"⟩
      { embedding_model := "m", vector_store := none }).1 (Or.inl rfl)

/-- C8: create_index on the empty chunk list takes the implemented documented
no-op branch: it returns without raising and leaves the object state, in
particular any existing in-memory index, exactly unchanged, for every build
function and every starting state. -/
theorem C8_create_index_empty (build : List Chunk → Except String FaissStore)
    (vs : VectorStore) :
    create_index build vs [] = Except.ok vs := by
  simp [create_index]

/-- The directory scan, expressed declaratively: it equals the supported,
successfully loaded, non-blank files in scan order, each turned into its
Document record. -/
theorem load_documents_eq_filter_map (files : List FileEntry) :
    load_documents_from_directory files = (files.filter goodFile).map mkLoadedDoc := by
  induction files with
  | nil => rfl
  | cons f rest ih =>
    by_cases hs : f.ext.toLower ∈ supported_extensions
    · cases hl : f.load_result with
      | error e =>
        have hg : goodFile f = false := by simp [goodFile, isErr, hl]
        simp [load_documents_from_directory, hs, hl, List.filter_cons, hg, ih]
      | ok c =>
        by_cases hb : isBlank c = true
        · have hg : goodFile f = false := by simp [goodFile, isErr, hl, contentOf, hb]
          simp [load_documents_from_directory, hs, hl, hb, List.filter_cons, hg, ih]
        · have hg : goodFile f = true := by simp [goodFile, isErr, hl, contentOf, hb, hs]
          simp [load_documents_from_directory, hs, hl, hb, List.filter_cons, hg, ih]
    · have hg : goodFile f = false := by simp [goodFile, hs]
      simp [load_documents_from_directory, hs, List.filter_cons, hg, ih]

/-- C9: the directory scan loads each supported file independently: the
result is one Document per supported file whose load succeeded with
non-blank content, in scan order; a file whose load raises, or whose content
is blank, or whose extension is unsupported, is skipped without affecting the
rest of the batch. -/
theorem C9_directory_scan (files xs ys : List FileEntry) (bad : FileEntry)
    (hbad : ¬ bad.ext.toLower ∈ supported_extensions ∨
      isErr bad.load_result = true ∨ isBlank (contentOf bad) = true) :
    load_documents_from_directory files = (files.filter goodFile).map mkLoadedDoc ∧
    (load_documents_from_directory files).length = (files.filter goodFile).length ∧
    load_documents_from_directory (xs ++ bad :: ys)
      = load_documents_from_directory (xs ++ ys) := by
  have hg : goodFile bad = false := by
    rcases hbad with h | h | h <;> simp [goodFile, h]
  refine ⟨load_documents_eq_filter_map files, ?_, ?_⟩
  · rw [load_documents_eq_filter_map, List.length_map]
  · rw [load_documents_eq_filter_map, load_documents_eq_filter_map,
      List.filter_append, List.filter_append, List.filter_cons, hg]
    simp

/-- C9 witness: a failing text file in front of a good one is skipped and
the good file still loads. -/
theorem C9_directory_scan_witness :
    load_documents_from_directory
        [⟨"p1", "b.txt", ".txt", Except.error "io"⟩,
         ⟨"p2", "g.txt", ".txt", Except.ok "hello"⟩]
      = load_documents_from_directory [⟨"p2", "g.txt", ".txt", Except.ok "hello"⟩] :=
  (C9_directory_scan [] [] [⟨"p2", "g.txt", ".txt", Except.ok "hello"⟩]
      ⟨"p1", "b.txt", ".txt", Except.error "io"⟩ (Or.inr (Or.inl rfl))).2.2

theorem foldl_dedupStep_nodup (l : List Chunk) (acc : List SourceInfo) (h : acc.Nodup) :
    (l.foldl dedupStep acc).Nodup := by
  induction l generalizing acc with
  | nil => exact h
  | cons c rest ih =>
    rw [List.foldl_cons]
    apply ih
    unfold dedupStep
    by_cases hm : sourceInfoOf c ∈ acc
    · rw [if_pos hm]
      exact h
    · rw [if_neg hm]
      rw [List.nodup_append]
      refine ⟨h, List.nodup_singleton _, ?_⟩
      intro a ha hb
      rw [List.mem_singleton] at hb
      subst hb
      exact hm ha

theorem foldl_dedupStep_mem (l : List Chunk) (acc : List SourceInfo) (s : SourceInfo)
    (h : s ∈ l.foldl dedupStep acc) : s ∈ acc ∨ ∃ c ∈ l, s = sourceInfoOf c := by
  induction l generalizing acc with
  | nil => exact Or.inl h
  | cons c rest ih =>
    rw [List.foldl_cons] at h
    rcases ih _ h with hacc | ⟨c', hc', hs⟩
    · unfold dedupStep at hacc
      by_cases hm : sourceInfoOf c ∈ acc
      · rw [if_pos hm] at hacc
        exact Or.inl hacc
      · rw [if_neg hm] at hacc
        rcases List.mem_append.mp hacc with h1 | h2
        · exact Or.inl h1
        · rw [List.mem_singleton] at h2
          exact Or.inr ⟨c, List.mem_cons_self _ _, h2⟩
    · exact Or.inr ⟨c', List.mem_cons_of_mem _ hc', hs⟩

/-- C10: answer_question is total (the outer except catches every internal
raise) and returns the four-field record answer, sources, context_count,
question; its question field echoes the input, its sources list is
duplicate-free and drawn from the source records of the retrieved chunks;
when generation succeeds context_count is the number of retrieved chunks and
sources is their deduplicated source list, and when anything in the body
raises the result has empty sources and context_count 0. -/
theorem C10_answer_question
    (inner : FaissStore → String → Nat → Except String (List Chunk))
    (gen : String → List Chunk → Except String String)
    (vs : VectorStore) (q : String) (k : Nat)
    (ctx : List Chunk) (hctx : similarity_search inner vs q k = ctx) :
    (answer_question inner gen vs q k).question = q ∧
    (answer_question inner gen vs q k).sources.Nodup ∧
    (∀ s ∈ (answer_question inner gen vs q k).sources, ∃ c ∈ ctx, s = sourceInfoOf c) ∧
    (isErr (gen q ctx) = false →
      (answer_question inner gen vs q k).context_count = ctx.length ∧
      (answer_question inner gen vs q k).sources = dedupSources ctx) ∧
    (isErr (gen q ctx) = true →
      (answer_question inner gen vs q k).sources = [] ∧
      (answer_question inner gen vs q k).context_count = 0) := by
  subst hctx
  simp only [answer_question, retrieve_context]
  cases hg : gen q (similarity_search inner vs q k) with
  | ok a =>
    refine ⟨rfl, ?_, ?_, fun _ => ⟨rfl, rfl⟩, fun hc => absurd hc (by simp [isErr])⟩
    · exact foldl_dedupStep_nodup (similarity_search inner vs q k) [] List.nodup_nil
    · intro s hsrc
      rcases foldl_dedupStep_mem (similarity_search inner vs q k) [] s hsrc with h0 | hex
      · exact absurd h0 (List.not_mem_nil s)
      · exact hex
  | error e =>
    refine ⟨rfl, List.nodup_nil, ?_, fun hc => absurd hc (by simp [isErr]),
      fun _ => ⟨rfl, rfl⟩⟩
    intro s hsrc
    exact absurd hsrc (List.not_mem_nil s)

/-- C10 witness: two retrieved chunks sharing one source record yield a
deduplicated singleton sources list and context_count 2. -/
theorem C10_answer_question_witness :
    (answer_question (fun st _ _ => Except.ok st.docs) (fun _ _ => Except.ok "ans")
        sampleDupVS "q" 4).sources.Nodup ∧
    (answer_question (fun st _ _ => Except.ok st.docs) (fun _ _ => Except.ok "ans")
        sampleDupVS "q" 4).context_count = 2 :=
  ⟨(C10_answer_question (fun st _ _ => Except.ok st.docs) (fun _ _ => Except.ok "ans")
      sampleDupVS "q" 4 [sampleChunk, sampleChunkB] rfl).2.1,
    ((C10_answer_question (fun st _ _ => Except.ok st.docs) (fun _ _ => Except.ok "ans")
      sampleDupVS "q" 4 [sampleChunk, sampleChunkB] rfl).2.2.2.1 rfl).1⟩

end OrgChar
